import Mathlib

/-!
Shallow embedding of src/src/libecryptfs/netlink.c (ecryptfs-utils userspace
netlink transport and dispatch loop).  Machine integers are modelled as Nat/Int
with explicit reductions modulo 2^32 / 2^64 where the C performs unsigned
arithmetic or implementation-defined conversions.  External effects (malloc,
realloc, recvfrom, sendto, socket, bind, parse_packet) are supplied by
environment records so every function is a pure, executable Lean definition.
-/

namespace Ecryptfs

/-- Modulus of the C type __u32. -/
def U32MOD : Nat := 2 ^ 32

/-- Modulus of the C type size_t on the 64-bit targets this code runs on. -/
def U64MOD : Nat := 2 ^ 64

/-- NLMSG_HDRLEN: aligned size of struct nlmsghdr (4+2+2+4+4 = 16 bytes). -/
def NLMSG_HDRLEN : Nat := 16

/-- Reinterpretation of an unsigned 32-bit value as a C int
(twos-complement wrap, the behavior of the compilers this code targets). -/
def toI32 (u : Nat) : Int :=
  if u % U32MOD < 2 ^ 31 then ((u % U32MOD : Nat) : Int)
  else ((u % U32MOD : Nat) : Int) - (U32MOD : Int)

/-- Conversion of a C int to size_t (modular, as when a negative int is
passed to malloc or realloc). -/
def toSizeT (i : Int) : Nat := (i % (U64MOD : Int)).toNat

/-- Modelled from the spec: struct ecryptfs_netlink_message, declared in the
include directory that is not part of src/.  The spec describes a Message as
an opaque byte sequence plus an index correlation field. -/
structure ENlMsg where
  index : Nat
  data : List Nat
deriving DecidableEq

/-- Modelled from the spec: sizeof(struct ecryptfs_netlink_message), the
fixed part preceding the flexible data bytes (index plus data length). -/
def sizeof_ecryptfs_netlink_message : Nat := 8

/-- Modelled from the spec: the message-type constants from the missing
include header.  Only their distinctness is relied upon. -/
def ECRYPTFS_NLMSG_HELO : Nat := 100

/-- Modelled from the spec: the QUIT message-type constant. -/
def ECRYPTFS_NLMSG_QUIT : Nat := 101

/-- Modelled from the spec: the REQUEST message-type constant. -/
def ECRYPTFS_NLMSG_REQUEST : Nat := 102

/-- Modelled from the spec: the RESPONSE message-type constant. -/
def ECRYPTFS_NLMSG_RESPONSE : Nat := 103

/-- The errno values named in netlink.c. -/
def ENOMSG : Nat := 42

/-- errno value EPROTO used for the malformed-address-length check. -/
def EPROTO : Nat := 71

/-- errno value EIO returned on fatal threshold termination. -/
def EIO_errno : Nat := 5

/-- Outcomes of the external calls made by ecryptfs_send_netlink. -/
structure SendEnv where
  alloc_ok : Bool
  alloc_errno : Nat
  sendto_ok : Bool
  sendto_errno : Nat
  sendto_ret : Nat
deriving DecidableEq

/-- The struct nlmsghdr as filled in by ecryptfs_send_netlink, together with
the payload copied after it (kept at message granularity: the byte layout of
the payload lives in the missing header and no claim depends on it). -/
structure WireFrame where
  nlmsg_len : Nat
  nlmsg_type : Nat
  nlmsg_flags : Nat
  nlmsg_seq : Nat
  nlmsg_pid : Nat
  body : Option ENlMsg
deriving DecidableEq

/-- ecryptfs_send_netlink (netlink.c lines 38-77): builds a frame whose
nlmsg_len is NLMSG_LENGTH(payload_len), whose sequence is the msg_seq
argument and whose destination pid is 0, then transmits it.  Returns the C
return code paired with the frame handed to sendto (none when the header
allocation failed before a frame existed). -/
def ecryptfs_send_netlink (env : SendEnv) (emsg : Option ENlMsg)
    (msg_type msg_flags msg_seq : Nat) : Int × Option WireFrame :=
  let payload_len : Nat :=
    match emsg with
    | some m => sizeof_ecryptfs_netlink_message + m.data.length
    | none => 0
  if env.alloc_ok = false then
    (-(env.alloc_errno : Int), none)
  else
    let nlh : WireFrame :=
      { nlmsg_len := payload_len + NLMSG_HDRLEN
        nlmsg_type := msg_type
        nlmsg_flags := msg_flags
        nlmsg_seq := msg_seq
        nlmsg_pid := 0
        body := emsg }
    if env.sendto_ok = false then
      (-(env.sendto_errno : Int), some nlh)
    else
      ((env.sendto_ret : Int), some nlh)

/-- One inbound datagram as it sits in the channel: the nlmsghdr fields the
peer declared, the message carried in its payload region, and the sender
address information recvfrom reports alongside it. -/
structure RecvFrame where
  nlmsg_len : Nat
  nlmsg_type : Nat
  nlmsg_flags : Nat
  nlmsg_seq : Nat
  pmsg : ENlMsg
  sender_pid : Nat
  addr_len_eq : Bool
deriving DecidableEq

/-- Outcomes of the external calls made by ecryptfs_recv_netlink, in program
order: the initial header-sized realloc, the MSG_PEEK recvfrom, the resize
realloc, the destructive recvfrom, and the payload malloc. -/
structure RecvEnv where
  realloc1_ok : Bool
  alloc1_errno : Nat
  peek_ok : Bool
  peek_errno : Nat
  realloc2_ok : Bool
  alloc2_errno : Nat
  read_ok : Bool
  read_errno : Nat
  read_ret : Nat
  emsg_alloc_ok : Bool
  emsg_errno : Nat
deriving DecidableEq

/-- The return paths of ecryptfs_recv_netlink, one per goto target use. -/
inductive RecvPath where
  | alloc1Fail
  | peekFail
  | resizeFail
  | readFail
  | badAddrLen
  | spoofed
  | emsgAllocFail
  | success
deriving DecidableEq

/-- Observable result of one ecryptfs_recv_netlink call: which return path
was taken, the C return code, the final values of the three out-parameters
(modelled in-out: fields keep their prior value unless the code writes them),
whether the frame buffer nlh was ever allocated and whether it was freed
before returning, the buffer size handed to the destructive recvfrom, and
the size requested from malloc for the payload copy. -/
structure RecvOut where
  path : RecvPath
  rc : Int
  emsg : Option ENlMsg
  msg_seq : Nat
  msg_type : Nat
  allocatedNlh : Bool
  freedNlh : Bool
  bufLenAtRead : Option Nat
  plAllocSize : Option Nat
deriving DecidableEq

/-- NLMSG_PAYLOAD(nlh, 0) as computed in unsigned 32-bit arithmetic:
nlmsg_len - NLMSG_SPACE(0), wrapping modulo 2^32 when nlmsg_len < 16. -/
def nlmsgPayloadU32 (nlmsg_len : Nat) : Nat :=
  (nlmsg_len % U32MOD + (U32MOD - NLMSG_HDRLEN)) % U32MOD

/-- ecryptfs_recv_netlink (netlink.c lines 79-142).  The goto-receive loop
runs exactly twice (MSG_PEEK pass, then destructive pass), so it is unrolled.
Control-flow notes traced from the source: a failed realloc returns via out
(the prior buffer leaks, since the local nlh was overwritten with NULL); the
spoofed-sender check returns via out, skipping the free at free_out; the
out-parameters msg_seq/msg_type are written only after every check passed;
the payload branch first writes *emsg with the result of malloc. -/
def ecryptfs_recv_netlink (env : RecvEnv) (fr : RecvFrame)
    (emsgIn : Option ENlMsg) (seqIn typeIn : Nat) : RecvOut :=
  if env.realloc1_ok = false then
    { path := .alloc1Fail, rc := -(env.alloc1_errno : Int), emsg := emsgIn
      msg_seq := seqIn, msg_type := typeIn
      allocatedNlh := false, freedNlh := false
      bufLenAtRead := none, plAllocSize := none }
  else if env.peek_ok = false then
    { path := .peekFail, rc := -(env.peek_errno : Int), emsg := emsgIn
      msg_seq := seqIn, msg_type := typeIn
      allocatedNlh := true, freedNlh := true
      bufLenAtRead := none, plAllocSize := none }
  else if env.realloc2_ok = false then
    { path := .resizeFail, rc := -(env.alloc2_errno : Int), emsg := emsgIn
      msg_seq := seqIn, msg_type := typeIn
      allocatedNlh := true, freedNlh := false
      bufLenAtRead := none, plAllocSize := none }
  else if env.read_ok = false then
    { path := .readFail, rc := -(env.read_errno : Int), emsg := emsgIn
      msg_seq := seqIn, msg_type := typeIn
      allocatedNlh := true, freedNlh := true
      bufLenAtRead := some (toSizeT (toI32 fr.nlmsg_len)), plAllocSize := none }
  else if fr.addr_len_eq = false then
    { path := .badAddrLen, rc := -(EPROTO : Int), emsg := emsgIn
      msg_seq := seqIn, msg_type := typeIn
      allocatedNlh := true, freedNlh := true
      bufLenAtRead := some (toSizeT (toI32 fr.nlmsg_len)), plAllocSize := none }
  else if fr.sender_pid ≠ 0 then
    { path := .spoofed, rc := -(ENOMSG : Int), emsg := emsgIn
      msg_seq := seqIn, msg_type := typeIn
      allocatedNlh := true, freedNlh := false
      bufLenAtRead := some (toSizeT (toI32 fr.nlmsg_len)), plAllocSize := none }
  else if toI32 (nlmsgPayloadU32 fr.nlmsg_len) ≠ 0 then
    if env.emsg_alloc_ok = false then
      { path := .emsgAllocFail, rc := -(env.emsg_errno : Int), emsg := none
        msg_seq := seqIn, msg_type := typeIn
        allocatedNlh := true, freedNlh := true
        bufLenAtRead := some (toSizeT (toI32 fr.nlmsg_len))
        plAllocSize := some (toSizeT (toI32 (nlmsgPayloadU32 fr.nlmsg_len))) }
    else
      { path := .success, rc := (env.read_ret : Int), emsg := some fr.pmsg
        msg_seq := fr.nlmsg_seq, msg_type := fr.nlmsg_type
        allocatedNlh := true, freedNlh := true
        bufLenAtRead := some (toSizeT (toI32 fr.nlmsg_len))
        plAllocSize := some (toSizeT (toI32 (nlmsgPayloadU32 fr.nlmsg_len))) }
  else
    { path := .success, rc := (env.read_ret : Int), emsg := emsgIn
      msg_seq := fr.nlmsg_seq, msg_type := fr.nlmsg_type
      allocatedNlh := true, freedNlh := true
      bufLenAtRead := some (toSizeT (toI32 fr.nlmsg_len)), plAllocSize := none }

/-- Outcomes of the external calls made by ecryptfs_init_netlink: the value
socket(2) returned (a descriptor, or -1 with errno on failure) and the value
bind(2) returned (0, or -1 with errno on failure). -/
structure InitEnv where
  socket_ret : Int
  socket_errno : Nat
  bind_ret : Int
  bind_errno : Nat
deriving DecidableEq

/-- ecryptfs_init_netlink (netlink.c lines 144-171), faithfully including
the failure test as written: if (!(*sk_fd)), which fires exactly when the
descriptor is 0 and not when socket() reports failure with -1. -/
def ecryptfs_init_netlink (env : InitEnv) : Int :=
  if env.socket_ret = 0 then -(env.socket_errno : Int)
  else if env.bind_ret ≠ 0 then -(env.bind_errno : Int)
  else env.bind_ret

/-- External inputs of one iteration of the daemon loop: what the
ecryptfs_recv_netlink call produced (return code and the values of the three
out-parameters afterwards), what the external parse_packet handler did
(its return code and, on success, the reply it allocated, index field
included exactly as the handler left it), and the environment of the
ecryptfs_send_netlink call for the response. -/
structure LoopIter where
  recvRc : Int
  emsg : Option ENlMsg
  msg_seq : Nat
  msg_type : Nat
  parseRc : Int
  reply : ENlMsg
  sendEnv : SendEnv
deriving DecidableEq

/-- State of the dispatch loop: still running with the current
consecutive-error count, or exited with the return code of the daemon (0 clean,
-EIO fatal).  The frames handed to sendto so far are carried along. -/
inductive LoopState where
  | running (error_count : Nat) (sent : List WireFrame)
  | exited (rc : Int) (sent : List WireFrame)
deriving DecidableEq

/-- Receive loop of ecryptfs_run_netlink_daemon (netlink.c lines 207-257),
run over a finite list of iteration inputs; an empty list means the loop is
still blocked in receive.  The threshold is the macro constant
ECRYPTFS_NETLINK_ERROR_COUNT_THRESHOLD from the missing header, kept as a
parameter since src/ fixes only the comparison, not the value.  Traced from
the source: any negative receive return increments error_count and the loop
exits fatally with -EIO when the count exceeds (strictly) the threshold;
HELO resets the count; QUIT exits with 0; REQUEST on parse success
overwrites reply->index with emsg->index, sends the reply as a RESPONSE
carrying the msg_seq of the request, ignores the send return code for loop
control, and resets the count; any other type leaves the count unchanged. -/
def ecryptfs_run_netlink_daemon (threshold : Nat) :
    List LoopIter → Nat → List WireFrame → LoopState
  | [], ec, sent => .running ec sent
  | it :: rest, ec, sent =>
    if it.recvRc < 0 then
      if ec + 1 > threshold then .exited (-(EIO_errno : Int)) sent
      else ecryptfs_run_netlink_daemon threshold rest (ec + 1) sent
    else if it.msg_type = ECRYPTFS_NLMSG_HELO then
      ecryptfs_run_netlink_daemon threshold rest 0 sent
    else if it.msg_type = ECRYPTFS_NLMSG_QUIT then
      .exited 0 sent
    else if it.msg_type = ECRYPTFS_NLMSG_REQUEST then
      if it.parseRc ≠ 0 then
        ecryptfs_run_netlink_daemon threshold rest ec sent
      else
        let reqIndex : Nat :=
          match it.emsg with
          | some m => m.index
          | none => 0
        let reply : ENlMsg := { it.reply with index := reqIndex }
        let sres := ecryptfs_send_netlink it.sendEnv (some reply)
          ECRYPTFS_NLMSG_RESPONSE 0 it.msg_seq
        let sent2 : List WireFrame :=
          match sres.2 with
          | some f => sent ++ [f]
          | none => sent
        ecryptfs_run_netlink_daemon threshold rest 0 sent2
    else
      ecryptfs_run_netlink_daemon threshold rest ec sent

/-- A receive environment in which every external call succeeds (the
destructive recvfrom reports 16 bytes; errno values are immaterial here). -/
def okRecvEnv : RecvEnv :=
  { realloc1_ok := true, alloc1_errno := 12, peek_ok := true, peek_errno := 4
    realloc2_ok := true, alloc2_errno := 12, read_ok := true, read_errno := 4
    read_ret := 16, emsg_alloc_ok := true, emsg_errno := 12 }

/-- A receive environment whose MSG_PEEK recvfrom fails with errno 4. -/
def peekFailRecvEnv : RecvEnv :=
  { okRecvEnv with peek_ok := false }

/-- A frame whose sender address carries the nonzero pid 1000: a userspace
process attempting to pass itself off as the kernel. -/
def spoofFrame : RecvFrame :=
  { nlmsg_len := 32, nlmsg_type := ECRYPTFS_NLMSG_REQUEST, nlmsg_flags := 0
    nlmsg_seq := 9, pmsg := ⟨3, [1]⟩, sender_pid := 1000, addr_len_eq := true }

/-- A header-only kernel frame: declared total length exactly 16, so the
declared payload length is zero. -/
def zeroPayloadFrame : RecvFrame :=
  { nlmsg_len := 16, nlmsg_type := ECRYPTFS_NLMSG_HELO, nlmsg_flags := 0
    nlmsg_seq := 5, pmsg := ⟨0, []⟩, sender_pid := 0, addr_len_eq := true }

/-- A kernel frame whose declared total length 8 is smaller than the 16-byte
header. -/
def shortFrame : RecvFrame :=
  { nlmsg_len := 8, nlmsg_type := ECRYPTFS_NLMSG_HELO, nlmsg_flags := 0
    nlmsg_seq := 5, pmsg := ⟨0, []⟩, sender_pid := 0, addr_len_eq := true }

/-- A well-formed kernel frame of declared length 20 (4 payload bytes). -/
def okFrame : RecvFrame :=
  { nlmsg_len := 20, nlmsg_type := ECRYPTFS_NLMSG_REQUEST, nlmsg_flags := 0
    nlmsg_seq := 7, pmsg := ⟨7, [1, 2, 3, 4]⟩, sender_pid := 0, addr_len_eq := true }

/-- A loop iteration in which the receive call failed with -EIO. -/
def failIter : LoopIter :=
  { recvRc := -5, emsg := none, msg_seq := 0, msg_type := 0, parseRc := 1
    reply := ⟨0, []⟩, sendEnv := ⟨true, 12, true, 4, 0⟩ }

/-- A loop iteration in which a HELO frame was received. -/
def heloIter : LoopIter :=
  { recvRc := 16, emsg := none, msg_seq := 0, msg_type := ECRYPTFS_NLMSG_HELO
    parseRc := 0, reply := ⟨0, []⟩, sendEnv := ⟨true, 12, true, 4, 0⟩ }

/-- A loop iteration in which the receive call rejected a spoofed frame
with -ENOMSG. -/
def spoofIter : LoopIter :=
  { recvRc := -(ENOMSG : Int), emsg := none, msg_seq := 0, msg_type := 0
    parseRc := 1, reply := ⟨0, []⟩, sendEnv := ⟨true, 12, true, 4, 0⟩ }

/-- A loop iteration carrying a REQUEST with index 7 and sequence 77 whose
handler succeeded, storing the unrelated index 99 in its reply. -/
def reqIter : LoopIter :=
  { recvRc := 16, emsg := some ⟨7, [3, 4]⟩, msg_seq := 77
    msg_type := ECRYPTFS_NLMSG_REQUEST, parseRc := 0
    reply := ⟨99, [5]⟩, sendEnv := ⟨true, 12, true, 4, 0⟩ }



lemma run_replicate_fail_le (t n ec : Nat) (sent : List WireFrame) (h : ec + n ≤ t) :
    ecryptfs_run_netlink_daemon t (List.replicate n failIter) ec sent =
      LoopState.running (ec + n) sent := by
  induction n generalizing ec with
  | zero => simp [ecryptfs_run_netlink_daemon]
  | succ m ih =>
    rw [List.replicate_succ, ecryptfs_run_netlink_daemon]
    rw [if_pos (by norm_num [failIter]), if_neg (by omega)]
    rw [ih (ec + 1) (by omega)]
    congr 1
    omega

lemma run_replicate_fail_exit (t n ec : Nat) (sent : List WireFrame)
    (h : ec + n = t + 1) (h1 : 1 ≤ n) :
    ecryptfs_run_netlink_daemon t (List.replicate n failIter) ec sent =
      LoopState.exited (-(EIO_errno : Int)) sent := by
  induction n generalizing ec with
  | zero => omega
  | succ m ih =>
    rw [List.replicate_succ, ecryptfs_run_netlink_daemon]
    rw [if_pos (by norm_num [failIter])]
    by_cases hm : m = 0
    · subst hm
      rw [if_pos (by omega)]
    · rw [if_neg (by omega)]
      exact ih (ec + 1) (by omega) (by omega)

lemma run_fail_helo_fail (t a b ec : Nat) (sent : List WireFrame)
    (ha : ec + a ≤ t) (hb : b ≤ t) :
    ecryptfs_run_netlink_daemon t
      (List.replicate a failIter ++ heloIter :: List.replicate b failIter) ec sent =
      LoopState.running b sent := by
  induction a generalizing ec with
  | zero =>
    rw [List.replicate, List.nil_append, ecryptfs_run_netlink_daemon]
    rw [if_neg (by norm_num [heloIter]), if_pos (by norm_num [heloIter])]
    have := run_replicate_fail_le t b 0 sent (by omega)
    simpa using this
  | succ m ih =>
    rw [List.replicate_succ, List.cons_append, ecryptfs_run_netlink_daemon]
    rw [if_pos (by norm_num [failIter]), if_neg (by omega)]
    exact ih (ec + 1) (by omega)



lemma send_builds_frame (env : SendEnv) (m : Option ENlMsg) (ty fl sq : Nat)
    (h : env.alloc_ok = true) :
    (ecryptfs_send_netlink env m ty fl sq).2 =
      some { nlmsg_len := (match m with
               | some x => sizeof_ecryptfs_netlink_message + x.data.length
               | none => 0) + NLMSG_HDRLEN
             nlmsg_type := ty, nlmsg_flags := fl, nlmsg_seq := sq
             nlmsg_pid := 0, body := m } := by
  unfold ecryptfs_send_netlink
  rw [if_neg (by simp [h])]
  split <;> (split <;> rfl)

lemma run_request_iteration (t ec : Nat) (it : LoopIter) (rest : List LoopIter)
    (sent : List WireFrame)
    (h0 : ¬ it.recvRc < 0) (h1 : it.msg_type = ECRYPTFS_NLMSG_REQUEST)
    (h2 : it.parseRc = 0) (h4 : it.sendEnv.alloc_ok = true) :
    ecryptfs_run_netlink_daemon t (it :: rest) ec sent =
      ecryptfs_run_netlink_daemon t rest 0 (sent ++
        [{ nlmsg_len := sizeof_ecryptfs_netlink_message + it.reply.data.length + NLMSG_HDRLEN
           nlmsg_type := ECRYPTFS_NLMSG_RESPONSE, nlmsg_flags := 0
           nlmsg_seq := it.msg_seq, nlmsg_pid := 0
           body := some { index := (match it.emsg with
                            | some m => m.index
                            | none => 0)
                          data := it.reply.data } }]) := by
  rw [ecryptfs_run_netlink_daemon]
  rw [if_neg h0, if_neg (by simp [h1]; decide), if_neg (by simp [h1]; decide),
      if_pos h1, if_neg (by simp [h2])]
  simp only [send_builds_frame it.sendEnv _ _ _ _ h4]

lemma recv_success_fields (env : RecvEnv) (fr : RecvFrame)
    (emsgIn : Option ENlMsg) (seqIn typeIn : Nat)
    (e1 : env.realloc1_ok = true) (e2 : env.peek_ok = true)
    (e3 : env.realloc2_ok = true) (e4 : env.read_ok = true)
    (e5 : env.emsg_alloc_ok = true)
    (f1 : fr.addr_len_eq = true) (f2 : fr.sender_pid = 0) :
    (ecryptfs_recv_netlink env fr emsgIn seqIn typeIn).path = RecvPath.success ∧
    (ecryptfs_recv_netlink env fr emsgIn seqIn typeIn).rc = (env.read_ret : Int) ∧
    (ecryptfs_recv_netlink env fr emsgIn seqIn typeIn).msg_seq = fr.nlmsg_seq ∧
    (ecryptfs_recv_netlink env fr emsgIn seqIn typeIn).msg_type = fr.nlmsg_type := by
  unfold ecryptfs_recv_netlink
  rw [if_neg (by simp [e1]), if_neg (by simp [e2]), if_neg (by simp [e3]),
      if_neg (by simp [e4]), if_neg (by simp [f1]), if_neg (by simp [f2])]
  split
  · rw [if_neg (by simp [e5])]
    exact ⟨rfl, rfl, rfl, rfl⟩
  · exact ⟨rfl, rfl, rfl, rfl⟩



lemma toI32_zero : toI32 0 = 0 := by decide

/-- C1 counterexample: a frame from nonzero pid 1000 makes the receive
return SpoofedSender (-ENOMSG), and the dispatch loop, which increments its
counter on every negative receive return, moves consecutive_error_count
from 0 to 1 for that iteration. -/
theorem spoofed_sender_not_counted_cex :
    (ecryptfs_recv_netlink okRecvEnv spoofFrame none 0 0).path = RecvPath.spoofed ∧
    (ecryptfs_recv_netlink okRecvEnv spoofFrame none 0 0).rc = -(ENOMSG : Int) ∧
    ecryptfs_run_netlink_daemon 3 [spoofIter] 0 [] = LoopState.running 1 [] := by
  decide

/-- C1 amended: a received frame with nonzero sender identity makes the
receive return SpoofedSender (-ENOMSG), and since the dispatch loop
increments consecutive_error_count on every negative receive return, the
spoofed frame does count toward the fatal-error threshold. -/
theorem spoofed_sender_counts_toward_threshold
    (env : RecvEnv) (fr : RecvFrame) (emsgIn : Option ENlMsg) (seqIn typeIn : Nat)
    (t ec : Nat) (it : LoopIter) (rest : List LoopIter) (sent : List WireFrame)
    (e1 : env.realloc1_ok = true) (e2 : env.peek_ok = true)
    (e3 : env.realloc2_ok = true) (e4 : env.read_ok = true)
    (f1 : fr.addr_len_eq = true) (f2 : fr.sender_pid ≠ 0)
    (h7 : it.recvRc < 0) (h8 : ec + 1 ≤ t) :
    (ecryptfs_recv_netlink env fr emsgIn seqIn typeIn).path = RecvPath.spoofed ∧
    (ecryptfs_recv_netlink env fr emsgIn seqIn typeIn).rc = -(ENOMSG : Int) ∧
    ecryptfs_run_netlink_daemon t (it :: rest) ec sent =
      ecryptfs_run_netlink_daemon t rest (ec + 1) sent := by
  refine ⟨?_, ?_, ?_⟩
  · unfold ecryptfs_recv_netlink
    rw [if_neg (by simp [e1]), if_neg (by simp [e2]), if_neg (by simp [e3]),
        if_neg (by simp [e4]), if_neg (by simp [f1]), if_pos f2]
  · unfold ecryptfs_recv_netlink
    rw [if_neg (by simp [e1]), if_neg (by simp [e2]), if_neg (by simp [e3]),
        if_neg (by simp [e4]), if_neg (by simp [f1]), if_pos f2]
  · rw [ecryptfs_run_netlink_daemon, if_pos h7, if_neg (by omega)]

theorem spoofed_sender_counts_toward_threshold_witness :
    (ecryptfs_recv_netlink okRecvEnv spoofFrame none 0 0).path = RecvPath.spoofed ∧
    (ecryptfs_recv_netlink okRecvEnv spoofFrame none 0 0).rc = -(ENOMSG : Int) ∧
    ecryptfs_run_netlink_daemon 3 (spoofIter :: []) 0 [] =
      ecryptfs_run_netlink_daemon 3 [] 1 [] :=
  spoofed_sender_counts_toward_threshold okRecvEnv spoofFrame none 0 0 3 0 spoofIter [] []
    rfl rfl rfl rfl rfl (by decide) (by decide) (by decide)

/-- C2 counterexample: with the threshold instantiated to 3, a run of
exactly 3 consecutive receive failures starting from a zero count leaves
the loop running (error_count 3) instead of terminating fatally, because
the code exits only when the count strictly exceeds the threshold. -/
theorem exact_threshold_failures_cex :
    ecryptfs_run_netlink_daemon 3 (List.replicate 3 failIter) 0 [] =
      LoopState.running 3 [] := by
  decide

/-- C2 amended: starting from a zero count, a run of threshold + 1
consecutive receive failures terminates the loop fatally (the code
terminates when the count strictly exceeds the threshold), while a run of
one fewer failure than the threshold interleaved with a single successful
HELO receive never terminates the loop. -/
theorem error_threshold_amended (t a b : Nat) :
    ecryptfs_run_netlink_daemon t (List.replicate (t + 1) failIter) 0 [] =
      LoopState.exited (-(EIO_errno : Int)) [] ∧
    (a + b + 1 = t →
      ecryptfs_run_netlink_daemon t
        (List.replicate a failIter ++ heloIter :: List.replicate b failIter) 0 [] =
        LoopState.running b []) := by
  constructor
  · exact run_replicate_fail_exit t (t + 1) 0 [] (by omega) (by omega)
  · intro h
    exact run_fail_helo_fail t a b 0 [] (by omega) (by omega)

theorem error_threshold_amended_witness :
    (1 + 1 + 1 = 3) ∧
    ecryptfs_run_netlink_daemon 3 (List.replicate 4 failIter) 0 [] =
      LoopState.exited (-(EIO_errno : Int)) [] ∧
    ecryptfs_run_netlink_daemon 3
      (List.replicate 1 failIter ++ heloIter :: List.replicate 1 failIter) 0 [] =
      LoopState.running 1 [] :=
  ⟨by decide, (error_threshold_amended 3 1 1).1,
    (error_threshold_amended 3 1 1).2 (by decide)⟩

/-- C3 counterexample: a successfully received zero-payload frame does not
set the message out-parameter to None; the receive leaves whatever value the
caller had there (here a previously decoded message) untouched. -/
theorem zero_payload_none_cex :
    (ecryptfs_recv_netlink okRecvEnv zeroPayloadFrame (some ⟨7, [1, 2]⟩) 0 0).path =
      RecvPath.success ∧
    (ecryptfs_recv_netlink okRecvEnv zeroPayloadFrame (some ⟨7, [1, 2]⟩) 0 0).emsg =
      some ⟨7, [1, 2]⟩ ∧
    (ecryptfs_recv_netlink okRecvEnv zeroPayloadFrame (some ⟨7, [1, 2]⟩) 0 0).emsg ≠
      none := by
  decide

/-- C3 amended: a successfully received frame with zero declared payload
length returns without writing the message out-parameter at all, so the
caller sees no message exactly when it pre-initialized the parameter to
None (as the daemon does before its first receive). -/
theorem zero_payload_leaves_emsg_unmodified
    (env : RecvEnv) (fr : RecvFrame) (emsgIn : Option ENlMsg) (seqIn typeIn : Nat)
    (e1 : env.realloc1_ok = true) (e2 : env.peek_ok = true)
    (e3 : env.realloc2_ok = true) (e4 : env.read_ok = true)
    (f1 : fr.addr_len_eq = true) (f2 : fr.sender_pid = 0)
    (hp : nlmsgPayloadU32 fr.nlmsg_len = 0) :
    (ecryptfs_recv_netlink env fr emsgIn seqIn typeIn).path = RecvPath.success ∧
    (ecryptfs_recv_netlink env fr emsgIn seqIn typeIn).emsg = emsgIn := by
  unfold ecryptfs_recv_netlink
  rw [if_neg (by simp [e1]), if_neg (by simp [e2]), if_neg (by simp [e3]),
      if_neg (by simp [e4]), if_neg (by simp [f1]), if_neg (by simp [f2]),
      if_neg (by simp [hp, toI32_zero])]
  exact ⟨rfl, rfl⟩

theorem zero_payload_leaves_emsg_unmodified_witness :
    (ecryptfs_recv_netlink okRecvEnv zeroPayloadFrame none 0 0).path =
      RecvPath.success ∧
    (ecryptfs_recv_netlink okRecvEnv zeroPayloadFrame none 0 0).emsg = none :=
  zero_payload_leaves_emsg_unmodified okRecvEnv zeroPayloadFrame none 0 0
    rfl rfl rfl rfl rfl rfl (by decide)



lemma toI32_of_lt (u : Nat) (h : u < 2 ^ 31) : toI32 u = (u : Int) := by
  unfold toI32 U32MOD
  rw [if_pos (by omega)]
  omega

lemma toI32_of_ge (u : Nat) (h1 : 2 ^ 31 ≤ u) (h2 : u < 2 ^ 32) :
    toI32 u = (u : Int) - 2 ^ 32 := by
  unfold toI32 U32MOD
  rw [if_neg (by omega)]
  omega

lemma toSizeT_coe (n : Nat) (h : n < 2 ^ 64) : toSizeT (n : Int) = n := by
  unfold toSizeT U64MOD
  rw [Int.emod_eq_of_lt (by positivity) (by exact_mod_cast h)]
  exact Int.toNat_natCast n

lemma nlmsgPayload_of_ge (d : Nat) (h16 : 16 ≤ d) (h : d < 2 ^ 32) :
    nlmsgPayloadU32 d = d - 16 := by
  unfold nlmsgPayloadU32 U32MOD NLMSG_HDRLEN
  omega

lemma nlmsgPayload_of_lt (d : Nat) (h : d < 16) :
    nlmsgPayloadU32 d = d + 2 ^ 32 - 16 := by
  unfold nlmsgPayloadU32 U32MOD NLMSG_HDRLEN
  omega

/-- C4 counterexample: on the spoofed-sender return path the receive exits
through the label that skips free(nlh), so the frame buffer it allocated is
not freed. -/
theorem recv_frees_every_path_cex :
    (ecryptfs_recv_netlink okRecvEnv spoofFrame none 0 0).path = RecvPath.spoofed ∧
    (ecryptfs_recv_netlink okRecvEnv spoofFrame none 0 0).allocatedNlh = true ∧
    (ecryptfs_recv_netlink okRecvEnv spoofFrame none 0 0).freedNlh = false := by
  decide

lemma recv_free_disj (env : RecvEnv) (fr : RecvFrame) (emsgIn : Option ENlMsg)
    (seqIn typeIn : Nat) :
    (ecryptfs_recv_netlink env fr emsgIn seqIn typeIn).freedNlh = true ∨
    (ecryptfs_recv_netlink env fr emsgIn seqIn typeIn).path = RecvPath.spoofed ∨
    (ecryptfs_recv_netlink env fr emsgIn seqIn typeIn).path = RecvPath.resizeFail ∨
    (ecryptfs_recv_netlink env fr emsgIn seqIn typeIn).allocatedNlh = false := by
  unfold ecryptfs_recv_netlink
  split_ifs <;> simp

/-- C4 amended: the receive frees the frame buffer it allocated on every
return path except the spoofed-sender path (goto out skips the free) and the
buffer-resize-failure path (the failed realloc overwrites the only pointer
to the original buffer). -/
theorem recv_frees_except_spoof_and_resize
    (env : RecvEnv) (fr : RecvFrame) (emsgIn : Option ENlMsg) (seqIn typeIn : Nat)
    (hs : (ecryptfs_recv_netlink env fr emsgIn seqIn typeIn).path ≠ RecvPath.spoofed)
    (hr : (ecryptfs_recv_netlink env fr emsgIn seqIn typeIn).path ≠ RecvPath.resizeFail)
    (ha : (ecryptfs_recv_netlink env fr emsgIn seqIn typeIn).allocatedNlh = true) :
    (ecryptfs_recv_netlink env fr emsgIn seqIn typeIn).freedNlh = true := by
  rcases recv_free_disj env fr emsgIn seqIn typeIn with h | h | h | h
  · exact h
  · exact absurd h hs
  · exact absurd h hr
  · simp [ha] at h

theorem recv_frees_except_spoof_and_resize_witness :
    (ecryptfs_recv_netlink okRecvEnv okFrame none 0 0).freedNlh = true :=
  recv_frees_except_spoof_and_resize okRecvEnv okFrame none 0 0
    (by decide) (by decide) (by decide)

/-- C5: evaluation of ecryptfs_init_netlink at the failing inputs.  When
socket() fails with -1 the failure test if-not-sk-fd does not fire: the
socket errno (99) is swallowed and the caller sees only whatever bind
produces on the invalid descriptor (-EBADF = -9), or even 0 if bind were to
succeed; conversely the legal descriptor 0 is misclassified as a failure. -/
theorem init_socket_failure_undetected :
    ecryptfs_init_netlink ⟨-1, 99, -1, 9⟩ = -9 ∧
    ecryptfs_init_netlink ⟨-1, 99, 0, 0⟩ = 0 ∧
    ecryptfs_init_netlink ⟨0, 17, 0, 0⟩ = -17 := by
  decide

/-- C10: on every return path other than the success path the msg_seq and
msg_type out-parameters keep the prior caller values, and on the success
path they are written with the sequence and type of the received frame. -/
theorem recv_out_params_written_only_on_success
    (env : RecvEnv) (fr : RecvFrame) (emsgIn : Option ENlMsg) (seqIn typeIn : Nat) :
    ((ecryptfs_recv_netlink env fr emsgIn seqIn typeIn).path ≠ RecvPath.success →
      (ecryptfs_recv_netlink env fr emsgIn seqIn typeIn).msg_seq = seqIn ∧
      (ecryptfs_recv_netlink env fr emsgIn seqIn typeIn).msg_type = typeIn) ∧
    ((ecryptfs_recv_netlink env fr emsgIn seqIn typeIn).path = RecvPath.success →
      (ecryptfs_recv_netlink env fr emsgIn seqIn typeIn).msg_seq = fr.nlmsg_seq ∧
      (ecryptfs_recv_netlink env fr emsgIn seqIn typeIn).msg_type = fr.nlmsg_type) := by
  unfold ecryptfs_recv_netlink
  split_ifs <;> simp

theorem recv_out_params_written_only_on_success_witness :
    (ecryptfs_recv_netlink peekFailRecvEnv okFrame none 5 6).msg_seq = 5 ∧
    (ecryptfs_recv_netlink peekFailRecvEnv okFrame none 5 6).msg_type = 6 :=
  (recv_out_params_written_only_on_success peekFailRecvEnv okFrame none 5 6).1
    (by decide)

/-- C6: for a successfully parsed REQUEST, the transmitted reply carries the
index of the request, whatever index the handler stored in its reply. -/
theorem reply_index_copied_from_request
    (t ec : Nat) (it : LoopIter) (sent : List WireFrame) (req : ENlMsg)
    (h0 : ¬ it.recvRc < 0) (h1 : it.msg_type = ECRYPTFS_NLMSG_REQUEST)
    (h2 : it.parseRc = 0) (h3 : it.emsg = some req)
    (h4 : it.sendEnv.alloc_ok = true) :
    ∃ f : WireFrame,
      ecryptfs_run_netlink_daemon t [it] ec sent =
        LoopState.running 0 (sent ++ [f]) ∧
      f.body = some { index := req.index, data := it.reply.data } := by
  rw [run_request_iteration t ec it [] sent h0 h1 h2 h4]
  refine ⟨{ nlmsg_len := sizeof_ecryptfs_netlink_message + it.reply.data.length + NLMSG_HDRLEN
            nlmsg_type := ECRYPTFS_NLMSG_RESPONSE, nlmsg_flags := 0
            nlmsg_seq := it.msg_seq, nlmsg_pid := 0
            body := some { index := req.index, data := it.reply.data } }, ?_, rfl⟩
  simp only [h3]
  rw [ecryptfs_run_netlink_daemon]

theorem reply_index_copied_from_request_witness :
    ∃ f : WireFrame,
      ecryptfs_run_netlink_daemon 3 [reqIter] 0 [] =
        LoopState.running 0 ([] ++ [f]) ∧
      f.body = some { index := 7, data := [5] } :=
  reply_index_copied_from_request 3 0 reqIter [] ⟨7, [3, 4]⟩
    (by decide) rfl rfl rfl rfl



/-- C7: a REQUEST frame received from the kernel and answered through the
dispatch step is responded to with a frame whose nlmsg_seq equals the
nlmsg_seq of the request frame: the receive hands that sequence to the
loop, and ecryptfs_send_netlink stamps exactly that sequence on the reply. -/
theorem response_sequence_matches_request
    (env : RecvEnv) (fr : RecvFrame) (emsgIn : Option ENlMsg) (seqIn typeIn : Nat)
    (t ec : Nat) (sent : List WireFrame) (rep : ENlMsg) (senv : SendEnv)
    (e1 : env.realloc1_ok = true) (e2 : env.peek_ok = true)
    (e3 : env.realloc2_ok = true) (e4 : env.read_ok = true)
    (e5 : env.emsg_alloc_ok = true)
    (f1 : fr.addr_len_eq = true) (f2 : fr.sender_pid = 0)
    (f3 : fr.nlmsg_type = ECRYPTFS_NLMSG_REQUEST)
    (s1 : senv.alloc_ok = true) :
    ∃ f : WireFrame,
      ecryptfs_run_netlink_daemon t
        [{ recvRc := (ecryptfs_recv_netlink env fr emsgIn seqIn typeIn).rc
           emsg := (ecryptfs_recv_netlink env fr emsgIn seqIn typeIn).emsg
           msg_seq := (ecryptfs_recv_netlink env fr emsgIn seqIn typeIn).msg_seq
           msg_type := (ecryptfs_recv_netlink env fr emsgIn seqIn typeIn).msg_type
           parseRc := 0, reply := rep, sendEnv := senv }] ec sent =
        LoopState.running 0 (sent ++ [f]) ∧
      f.nlmsg_seq = fr.nlmsg_seq := by
  obtain ⟨hp, hrc, hseq, hty⟩ :=
    recv_success_fields env fr emsgIn seqIn typeIn e1 e2 e3 e4 e5 f1 f2
  rw [run_request_iteration t ec _ [] sent (by simp [hrc]) (by simp [hty, f3])
      rfl s1]
  exact ⟨_, by rw [ecryptfs_run_netlink_daemon], by simp [hseq]⟩

theorem response_sequence_matches_request_witness :
    ∃ f : WireFrame,
      ecryptfs_run_netlink_daemon 3
        [{ recvRc := (ecryptfs_recv_netlink okRecvEnv okFrame none 0 0).rc
           emsg := (ecryptfs_recv_netlink okRecvEnv okFrame none 0 0).emsg
           msg_seq := (ecryptfs_recv_netlink okRecvEnv okFrame none 0 0).msg_seq
           msg_type := (ecryptfs_recv_netlink okRecvEnv okFrame none 0 0).msg_type
           parseRc := 0, reply := ⟨99, [5]⟩, sendEnv := ⟨true, 12, true, 4, 0⟩ }] 0 [] =
        LoopState.running 0 ([] ++ [f]) ∧
      f.nlmsg_seq = okFrame.nlmsg_seq :=
  response_sequence_matches_request okRecvEnv okFrame none 0 0 3 0 [] ⟨99, [5]⟩
    ⟨true, 12, true, 4, 0⟩ rfl rfl rfl rfl rfl rfl rfl rfl rfl

/-- C8 counterexample: a received frame declaring total length 8 is a
received frame, yet the size requested for the payload buffer is the wrapped
value 2^64 - 8, not the mathematical declared-minus-header difference. -/
theorem payload_alloc_exact_cex :
    (ecryptfs_recv_netlink okRecvEnv shortFrame none 0 0).path = RecvPath.success ∧
    (ecryptfs_recv_netlink okRecvEnv shortFrame none 0 0).bufLenAtRead = some 8 ∧
    (ecryptfs_recv_netlink okRecvEnv shortFrame none 0 0).plAllocSize =
      some (2 ^ 64 - 8) ∧
    ¬ (((2 ^ 64 - 8 : Nat) : Int) = (8 : Int) - 16) := by
  decide

/-- C8 amended: for received frames whose declared total length is at least
the 16-byte header (and within the sane int range below 2^31), the receive
buffer is resized to exactly the declared length before the destructive
read, and the payload buffer is requested with exactly declared - 16 bytes
(none when the payload is empty). -/
theorem resize_and_payload_alloc_amended
    (env : RecvEnv) (fr : RecvFrame) (emsgIn : Option ENlMsg) (seqIn typeIn : Nat)
    (e1 : env.realloc1_ok = true) (e2 : env.peek_ok = true)
    (e3 : env.realloc2_ok = true) (e4 : env.read_ok = true)
    (e5 : env.emsg_alloc_ok = true)
    (f1 : fr.addr_len_eq = true) (f2 : fr.sender_pid = 0)
    (hge : 16 ≤ fr.nlmsg_len) (hlt : fr.nlmsg_len < 2 ^ 31) :
    (ecryptfs_recv_netlink env fr emsgIn seqIn typeIn).bufLenAtRead =
      some fr.nlmsg_len ∧
    (16 < fr.nlmsg_len →
      (ecryptfs_recv_netlink env fr emsgIn seqIn typeIn).plAllocSize =
        some (fr.nlmsg_len - 16)) ∧
    (fr.nlmsg_len = 16 →
      (ecryptfs_recv_netlink env fr emsgIn seqIn typeIn).plAllocSize = none) := by
  have hpl : nlmsgPayloadU32 fr.nlmsg_len = fr.nlmsg_len - 16 :=
    nlmsgPayload_of_ge _ hge (by omega)
  have hbuf : toSizeT (toI32 fr.nlmsg_len) = fr.nlmsg_len := by
    rw [toI32_of_lt _ hlt, toSizeT_coe _ (by omega)]
  unfold ecryptfs_recv_netlink
  rw [if_neg (by simp [e1]), if_neg (by simp [e2]), if_neg (by simp [e3]),
      if_neg (by simp [e4]), if_neg (by simp [f1]), if_neg (by simp [f2]),
      hpl, toI32_of_lt _ (by omega)]
  by_cases h16 : fr.nlmsg_len = 16
  · rw [if_neg (by simp [h16])]
    exact ⟨by rw [hbuf], fun hc => absurd h16 (by omega), fun _ => rfl⟩
  · rw [if_pos (by simp; omega), if_neg (by simp [e5])]
    refine ⟨by rw [hbuf], fun hc => ?_, fun hc => absurd hc h16⟩
    simp only [toSizeT_coe _ (by omega : fr.nlmsg_len - 16 < 2 ^ 64)]

theorem resize_and_payload_alloc_amended_witness :
    (16 ≤ okFrame.nlmsg_len) ∧
    (ecryptfs_recv_netlink okRecvEnv okFrame none 0 0).bufLenAtRead = some 20 ∧
    (ecryptfs_recv_netlink okRecvEnv okFrame none 0 0).plAllocSize = some 4 :=
  ⟨by decide,
   (resize_and_payload_alloc_amended okRecvEnv okFrame none 0 0
      rfl rfl rfl rfl rfl rfl rfl (by decide) (by decide)).1,
   (resize_and_payload_alloc_amended okRecvEnv okFrame none 0 0
      rfl rfl rfl rfl rfl rfl rfl (by decide) (by decide)).2.1 (by decide)⟩

/-- C9: the receiver adopts the declared length of the peeked frame verbatim as
the size of the resized buffer for the destructive read, with no upper bound
and no lower check against the header size; for a declared length below 16
the 32-bit payload-length computation wraps past zero (its C int value is
the mathematical difference plus 2^32, i.e. negative as an int), and the
payload allocation is still attempted with that wrapped size. -/
theorem declared_length_adopted_unchecked
    (env : RecvEnv) (fr : RecvFrame) (emsgIn : Option ENlMsg) (seqIn typeIn : Nat)
    (e1 : env.realloc1_ok = true) (e2 : env.peek_ok = true)
    (e3 : env.realloc2_ok = true) (e4 : env.read_ok = true)
    (f1 : fr.addr_len_eq = true) (f2 : fr.sender_pid = 0)
    (hlt : fr.nlmsg_len < 2 ^ 31) :
    (ecryptfs_recv_netlink env fr emsgIn seqIn typeIn).bufLenAtRead =
      some fr.nlmsg_len ∧
    (fr.nlmsg_len < 16 →
      toI32 (nlmsgPayloadU32 fr.nlmsg_len) < 0 ∧
      (nlmsgPayloadU32 fr.nlmsg_len : Int) = (fr.nlmsg_len : Int) - 16 + 2 ^ 32 ∧
      (ecryptfs_recv_netlink env fr emsgIn seqIn typeIn).plAllocSize ≠ none) := by
  have hbuf : toSizeT (toI32 fr.nlmsg_len) = fr.nlmsg_len := by
    rw [toI32_of_lt _ hlt, toSizeT_coe _ (by omega)]
  unfold ecryptfs_recv_netlink
  rw [if_neg (by simp [e1]), if_neg (by simp [e2]), if_neg (by simp [e3]),
      if_neg (by simp [e4]), if_neg (by simp [f1]), if_neg (by simp [f2])]
  by_cases hsm : fr.nlmsg_len < 16
  · have hplv : nlmsgPayloadU32 fr.nlmsg_len = fr.nlmsg_len + 2 ^ 32 - 16 :=
      nlmsgPayload_of_lt _ hsm
    have hneg : toI32 (nlmsgPayloadU32 fr.nlmsg_len) = (fr.nlmsg_len : Int) - 16 := by
      rw [hplv, toI32_of_ge _ (by omega) (by omega)]
      omega
    rw [if_pos (by rw [hneg]; omega)]
    split_ifs with hem
    · exact ⟨by rw [hbuf], fun hc => ⟨by rw [hneg]; omega, by rw [hplv]; omega, by simp⟩⟩
    · exact ⟨by rw [hbuf], fun hc => ⟨by rw [hneg]; omega, by rw [hplv]; omega, by simp⟩⟩
  · split_ifs with hnz hem
    · exact ⟨by rw [hbuf], fun hc => absurd hc hsm⟩
    · exact ⟨by rw [hbuf], fun hc => absurd hc hsm⟩
    · exact ⟨by rw [hbuf], fun hc => absurd hc hsm⟩

theorem declared_length_adopted_unchecked_witness :
    (shortFrame.nlmsg_len < 16) ∧
    (ecryptfs_recv_netlink okRecvEnv shortFrame none 0 0).bufLenAtRead = some 8 ∧
    (toI32 (nlmsgPayloadU32 8) < 0 ∧
      (nlmsgPayloadU32 8 : Int) = (8 : Int) - 16 + 2 ^ 32 ∧
      (ecryptfs_recv_netlink okRecvEnv shortFrame none 0 0).plAllocSize ≠ none) :=
  ⟨by decide,
   (declared_length_adopted_unchecked okRecvEnv shortFrame none 0 0
      rfl rfl rfl rfl rfl rfl (by decide)).1,
   (declared_length_adopted_unchecked okRecvEnv shortFrame none 0 0
      rfl rfl rfl rfl rfl rfl (by decide)).2 (by decide)⟩

end Ecryptfs
